import Mathlib

set_option maxRecDepth 100000

/-!
Shallow embedding of the heuristic classification-and-protection engine of the
`prd-zero` repository (src/validators/scopeProtection.ts, the validator helpers
of the prdZeroSchemas module, the validation integrator, and
src/services/questionTypeDetector.ts).

Conventions of the embedding:

* JavaScript `number` values are modelled as exact rationals (`ℚ`).  All the
  arithmetic appearing in the embedded code is small and exact (multipliers
  such as 1.3, 1.5, 0.8 and divisions of small integers), so the rational
  model coincides with IEEE doubles everywhere a claim looks.
* The special values produced by JavaScript division (`Infinity`, `-Infinity`,
  `NaN`) are modelled by the `JSNum` type; comparisons against `NaN` are
  `false`, exactly as in JavaScript.
* Rational arithmetic is routed through the kernel-computable wrappers
  `qAdd`, `qSub`, `qMul`, `qDiv`, `jsMin`, `jsFloor`, `jsCeil`, `jsRound`
  (Lean's `Rat.add` etc. do not reduce inside the kernel); the bridge lemmas
  `qAdd_eq` … `jsRound_eq` identify them with the ordinary Mathlib operations.
  Non-integer constants are written with `Rat.divInt` (e.g. `Rat.divInt 13 10`
  for the literal `1.3`) for the same reason.
* JavaScript's case-insensitive substring tests `a.toLowerCase().includes(b)`
  are modelled on the character lists underlying strings (`lowerStr`,
  `jsIncludes`); all keywords in the embedded tables are ASCII, where
  `Char.toLower` agrees with JavaScript `toLowerCase`.
* `Array.prototype.sort` (stable in modern JavaScript) is modelled by the
  stable `List.insertionSort`.
-/

-- ==========================================
-- Kernel-computable rational arithmetic
-- ==========================================

def qAdd (a b : ℚ) : ℚ := Rat.divInt (a.num * b.den + b.num * a.den) (a.den * b.den)

def qSub (a b : ℚ) : ℚ := Rat.divInt (a.num * b.den - b.num * a.den) (a.den * b.den)

def qMul (a b : ℚ) : ℚ := Rat.divInt (a.num * b.num) (a.den * b.den)

def qDiv (a b : ℚ) : ℚ := Rat.divInt (a.num * b.den) (a.den * b.num)

/-- JavaScript `Math.min` restricted to finite values. -/
def jsMin (a b : ℚ) : ℚ := if a ≤ b then a else b

/-- Floor of a rational, computed on the normalized numerator/denominator. -/
def jsFloor (q : ℚ) : ℤ := q.num / (q.den : ℤ)

/-- JavaScript `Math.ceil` restricted to finite values. -/
def jsCeil (q : ℚ) : ℤ := -((-q.num) / (q.den : ℤ))

/-- JavaScript `Math.round` restricted to finite values (round half up). -/
def jsRound (q : ℚ) : ℤ := jsFloor (qAdd q (Rat.divInt 1 2))

-- ==========================================
-- JavaScript number model with NaN and infinities
-- ==========================================

/-- A JavaScript `number` that may be `NaN` or an infinity; finite values are
exact rationals. -/
inductive JSNum where
  | num (q : ℚ)
  | posInf
  | negInf
  | nan
deriving DecidableEq

def JSNum.mul : JSNum → JSNum → JSNum
  | .nan, _ => .nan
  | _, .nan => .nan
  | .num a, .num b => .num (qMul a b)
  | .num a, .posInf => if 0 < a then .posInf else if a < 0 then .negInf else .nan
  | .num a, .negInf => if 0 < a then .negInf else if a < 0 then .posInf else .nan
  | .posInf, .num b => if 0 < b then .posInf else if b < 0 then .negInf else .nan
  | .negInf, .num b => if 0 < b then .negInf else if b < 0 then .posInf else .nan
  | .posInf, .posInf => .posInf
  | .posInf, .negInf => .negInf
  | .negInf, .posInf => .negInf
  | .negInf, .negInf => .posInf

def JSNum.div : JSNum → JSNum → JSNum
  | .nan, _ => .nan
  | _, .nan => .nan
  | .num a, .num b =>
    if b = 0 then (if a = 0 then .nan else if 0 < a then .posInf else .negInf)
    else .num (qDiv a b)
  | .num _, .posInf => .num 0
  | .num _, .negInf => .num 0
  | .posInf, .num b => if 0 ≤ b then .posInf else .negInf
  | .negInf, .num b => if 0 ≤ b then .negInf else .posInf
  | .posInf, _ => .nan
  | .negInf, _ => .nan

/-- JavaScript `<`: any comparison involving `NaN` is `false`. -/
def JSNum.lt : JSNum → JSNum → Bool
  | .nan, _ => false
  | _, .nan => false
  | .num a, .num b => decide (a < b)
  | .num _, .posInf => true
  | .num _, .negInf => false
  | .posInf, _ => false
  | .negInf, .negInf => false
  | .negInf, _ => true

/-- JavaScript `<=`: any comparison involving `NaN` is `false`. -/
def JSNum.le : JSNum → JSNum → Bool
  | .nan, _ => false
  | _, .nan => false
  | .num a, .num b => decide (a ≤ b)
  | .num _, .posInf => true
  | .num _, .negInf => false
  | .posInf, .posInf => true
  | .posInf, _ => false
  | .negInf, _ => true

/-- JavaScript `>`. -/
def JSNum.gt (a b : JSNum) : Bool := JSNum.lt b a

/-- JavaScript `Math.round` extended to NaN and infinities. -/
def JSNum.round : JSNum → JSNum
  | .num q => .num ((jsRound q : ℤ) : ℚ)
  | .posInf => .posInf
  | .negInf => .negInf
  | .nan => .nan

/-- JavaScript `Math.max(0, x)` extended to NaN and infinities. -/
def JSNum.max0 : JSNum → JSNum
  | .num q => .num (if 0 ≤ q then q else 0)
  | .posInf => .posInf
  | .negInf => .num 0
  | .nan => .nan

/-- String rendering of a `JSNum` for interpolated messages (display only;
no claim inspects these strings). -/
def JSNum.display : JSNum → String
  | .num q => if q.den = 1 then toString q.num else toString q.num ++ "/" ++ toString q.den
  | .posInf => "Infinity"
  | .negInf => "-Infinity"
  | .nan => "NaN"

-- ==========================================
-- JavaScript string helpers
-- ==========================================

/-- The character list of `s.toLowerCase()` (ASCII lowering, which agrees with
JavaScript on all keywords of the embedded tables). -/
def lowerStr (s : String) : List Char := s.data.map Char.toLower

/-- JavaScript `hay.includes(needle)` on character lists. -/
def jsIncludes (hay needle : List Char) : Bool := decide (needle <:+: hay)

/-- JavaScript `String.prototype.split` with a single-character separator. -/
def splitOnChar (sep : Char) : List Char → List (List Char)
  | [] => [[]]
  | c :: cs =>
    match splitOnChar sep cs with
    | [] => [[]]
    | g :: gs => if c = sep then [] :: g :: gs else (c :: g) :: gs

/-- JavaScript `Array.prototype.join(', ')`. -/
def joinComma (l : List String) : String := String.intercalate ", " l

-- ==========================================
-- scopeProtection.ts : keyword tables
-- ==========================================

def COMPLEXITY_KEYWORDS_high : List String :=
  ["AI", "ML", "machine learning", "artificial intelligence",
   "blockchain", "crypto", "web3", "NFT",
   "real-time", "websocket", "streaming",
   "scalable", "microservices", "distributed",
   "3D", "VR", "AR", "metaverse",
   "marketplace", "platform", "ecosystem",
   "social network", "community platform"]

def COMPLEXITY_KEYWORDS_medium : List String :=
  ["payment", "subscription", "billing",
   "authentication", "authorization", "SSO",
   "notification", "email", "SMS",
   "file upload", "image processing",
   "search", "filtering", "sorting",
   "dashboard", "analytics", "reporting"]

def COMPLEXITY_KEYWORDS_low : List String :=
  ["form", "CRUD", "list", "display",
   "static", "landing page", "blog",
   "contact", "about", "FAQ"]

def SCOPE_CREEP_PHRASES : List String :=
  ["and also", "plus", "in addition", "furthermore", "as well as",
   "along with", "everything", "all features", "complete solution",
   "full platform"]

-- ==========================================
-- scopeProtection.ts : feature complexity analyzer
-- ==========================================

inductive Level where
  | low
  | medium
  | high
  | extreme
deriving DecidableEq

structure ComplexityScore where
  score : ℚ
  level : Level
  warnings : List String
  estimatedWeeks : ℤ
deriving DecidableEq

/-- The high-complexity keywords found in a feature (case-insensitive
substring matches). -/
def highMatches (feature : String) : List String :=
  COMPLEXITY_KEYWORDS_high.filter fun keyword =>
    jsIncludes (lowerStr feature) (lowerStr keyword)

/-- The medium-complexity keywords found in a feature. -/
def mediumMatches (feature : String) : List String :=
  COMPLEXITY_KEYWORDS_medium.filter fun keyword =>
    jsIncludes (lowerStr feature) (lowerStr keyword)

/-- Whether any scope-creep connector phrase occurs in the feature (the
phrases of the table are already lower-case and are matched verbatim, as in
the source). -/
def scopeCreepIn (feature : String) : Bool :=
  SCOPE_CREEP_PHRASES.any fun phrase => jsIncludes (lowerStr feature) phrase.data

/-- The score accumulation of `analyzeFeatureComplexity`: base 1, plus
`3 × matchCount` for high keywords, `1.5 × matchCount` for medium keywords,
2 for scope creep, 1 for length over 100, capped at 10. -/
def complexityRawScore (high medium : ℕ) (creep long : Bool) : ℚ :=
  let score : ℚ := 1
  let score := if high > 0 then qAdd score (qMul (high : ℚ) 3) else score
  let score := if medium > 0 then qAdd score (qMul (medium : ℚ) (Rat.divInt 3 2)) else score
  let score := if creep then qAdd score 2 else score
  let score := if long then qAdd score 1 else score
  jsMin 10 score

def analyzeFeatureComplexity (feature : String) : ComplexityScore :=
  let highComplexityMatches := highMatches feature
  let mediumComplexityMatches := mediumMatches feature
  let scopeCreepDetected := scopeCreepIn feature
  let score := complexityRawScore highComplexityMatches.length mediumComplexityMatches.length
    scopeCreepDetected (decide (feature.length > 100))
  let warnings :=
    (if highComplexityMatches.length > 0 then
      ["High complexity detected: " ++ joinComma highComplexityMatches] else [])
    ++ (if mediumComplexityMatches.length > 0 then
      ["Medium complexity elements: " ++ joinComma mediumComplexityMatches] else [])
    ++ (if scopeCreepDetected then
      ["Multiple sub-features detected - consider splitting"] else [])
    ++ (if feature.length > 100 then
      ["Feature description too detailed - might be multiple features"] else [])
  let level : Level :=
    if score ≤ 3 then .low
    else if score ≤ 5 then .medium
    else if score ≤ 8 then .high
    else .extreme
  { score := score,
    level := level,
    warnings := warnings,
    estimatedWeeks := jsCeil (qDiv score 2) }

-- ==========================================
-- scopeProtection.ts : solo developer capacity validator
-- ==========================================

inductive ExperienceLevel where
  | beginner
  | intermediate
  | expert
deriving DecidableEq

def experienceMultiplier : ExperienceLevel → ℚ
  | .beginner => Rat.divInt 3 2
  | .intermediate => 1
  | .expert => Rat.divInt 4 5

structure CapacityAnalysis where
  feasible : Bool
  totalComplexity : ℚ
  estimatedWeeks : ℤ
  availableWeeks : ℚ
  utilizationPercent : JSNum
  recommendations : List String
deriving DecidableEq

def validateSoloDeveloperCapacity (features : List String) (timelineWeeks : ℚ)
    (experienceLevel : ExperienceLevel := .intermediate) : CapacityAnalysis :=
  let complexityScores := features.map analyzeFeatureComplexity
  let totalComplexity := complexityScores.foldl (fun sum c => qAdd sum c.score) 0
  let estimatedWeeksRaw : ℚ :=
    complexityScores.foldl (fun sum c => qAdd sum (c.estimatedWeeks : ℚ)) 0
  -- adjust for experience level, then add 30% overhead (the literal 1.3)
  let estimatedWeeks :=
    qMul (qMul estimatedWeeksRaw (experienceMultiplier experienceLevel)) (Rat.divInt 13 10)
  let utilizationPercent :=
    JSNum.mul (JSNum.div (.num estimatedWeeks) (.num timelineWeeks)) (.num 100)
  let feasible := JSNum.le utilizationPercent (.num 80)
  let recommendations :=
    if !feasible then
      ["⚠️ Timeline too aggressive for feature set"]
      ++ (if features.length > 3 then ["Reduce to 3 core features maximum"] else [])
      ++ (if (complexityScores.filter fun c =>
            decide (c.level = Level.high ∨ c.level = Level.extreme)).length > 0 then
          ["Simplify or defer high-complexity features"] else [])
      ++ ["Suggested timeline: "
          ++ toString (jsCeil (qDiv estimatedWeeks (Rat.divInt 4 5))) ++ " weeks"]
    else if JSNum.gt utilizationPercent (.num 60) then
      ["✓ Timeline is tight but achievable",
       "Consider adding 1-2 weeks buffer for unexpected issues"]
    else if JSNum.lt utilizationPercent (.num 40) then
      ["Timeline has good buffer - consider earlier launch"]
    else []
  { feasible := feasible,
    totalComplexity := totalComplexity,
    estimatedWeeks := jsCeil estimatedWeeks,
    availableWeeks := timelineWeeks,
    utilizationPercent := utilizationPercent.round,
    recommendations := recommendations }

/-- The utilization quantity of the specification, written independently with
ordinary Mathlib arithmetic: the summed per-feature week estimates, scaled by
the experience multiplier and the 1.3 overhead factor, divided by the
timeline and expressed as a percentage (JavaScript semantics for the
division). -/
def specUtilization (features : List String) (timelineWeeks : ℚ)
    (lvl : ExperienceLevel) : JSNum :=
  let est := (features.map fun f => ((analyzeFeatureComplexity f).estimatedWeeks : ℚ)).sum
    * experienceMultiplier lvl * (13 / 10 : ℚ)
  JSNum.mul (JSNum.div (.num est) (.num timelineWeeks)) (.num 100)

-- ==========================================
-- scopeProtection.ts : anti-overengineering validator
-- ==========================================

structure OverengineeringResult where
  detected : Bool
  issues : List String
  suggestions : List String
deriving DecidableEq

def detectOverengineering (techStack features : List String) (userCount : ℚ) :
    OverengineeringResult :=
  let c1 := (techStack.any fun tech => jsIncludes (lowerStr tech) "kubernetes".data)
    && decide (userCount < 10000)
  let c2 := (techStack.any fun tech => jsIncludes (lowerStr tech) "microservice".data)
    && decide (features.length < 10)
  let c3 := (techStack.any fun tech => jsIncludes (lowerStr tech) "redis".data)
    && decide (userCount < 1000)
  let c4 := (techStack.any fun tech => jsIncludes (lowerStr tech) "graphql".data)
    && decide (features.length < 5)
  let databases := techStack.filter fun tech =>
    ["postgres", "mysql", "mongodb", "redis", "elasticsearch", "dynamodb"].any fun db =>
      jsIncludes (lowerStr tech) db.data
  let c5 := databases.length > 1
  let c6 := (features.any fun f => jsIncludes (lowerStr f) "real-time".data)
    && !(features.any fun f =>
      jsIncludes (lowerStr f) "chat".data || jsIncludes (lowerStr f) "collaboration".data)
  let issues :=
    (if c1 then ["Kubernetes is overkill for < 10k users"] else [])
    ++ (if c2 then ["Microservices unnecessary for small feature set"] else [])
    ++ (if c3 then ["Redis caching premature for < 1000 users"] else [])
    ++ (if c4 then ["GraphQL adds complexity for simple APIs"] else [])
    ++ (if c5 then ["Multiple databases increase complexity"] else [])
    ++ (if c6 then ["Real-time might be unnecessary"] else [])
  let suggestions :=
    (if c1 then ["Use simple VPS or PaaS like Railway/Fly.io"] else [])
    ++ (if c2 then ["Start with monolithic architecture"] else [])
    ++ (if c3 then ["Use in-memory caching initially"] else [])
    ++ (if c4 then ["Start with REST API"] else [])
    ++ (if c5 then ["Start with single database (PostgreSQL recommended)"] else [])
    ++ (if c6 then ["Consider polling or refresh buttons initially"] else [])
  { detected := decide (issues.length > 0), issues := issues, suggestions := suggestions }

-- ==========================================
-- scopeProtection.ts : timeline sanity checker
-- ==========================================

structure TimelineSanity where
  sane : Bool
  riskLevel : Level
  adjustedTimeline : ℤ
  bufferWeeks : ℤ
  criticalMilestones : List String
deriving DecidableEq

def checkTimelineSanity (features : List String) (targetWeeks : ℚ)
    (hasExistingCode : Bool := false) : TimelineSanity :=
  let complexityScores := features.map analyzeFeatureComplexity
  let baseWeeks : ℚ :=
    complexityScores.foldl (fun sum c => qAdd sum (c.estimatedWeeks : ℚ)) 0
  let planningWeeks : ℚ := Rat.divInt 1 2
  let testingWeeks : ℤ := jsCeil (qMul baseWeeks (Rat.divInt 1 5))
  let deploymentWeeks : ℚ := Rat.divInt 1 2
  let bufferWeeks : ℤ := jsCeil (qMul baseWeeks (Rat.divInt 3 10))
  let adjustedTimelineRaw : ℚ :=
    qAdd (qAdd (qAdd (qAdd baseWeeks planningWeeks) (testingWeeks : ℚ)) deploymentWeeks)
      (bufferWeeks : ℚ)
  let adjustedTimelineRaw :=
    if hasExistingCode then qMul adjustedTimelineRaw (Rat.divInt 4 5) else adjustedTimelineRaw
  let adjustedTimeline : ℤ := jsCeil adjustedTimelineRaw
  -- adjustedTimeline ≥ 1 for every input, so the JavaScript float division is
  -- an ordinary rational division here
  let targetToAdjusted : ℚ := qDiv targetWeeks (adjustedTimeline : ℚ)
  let riskLevel : Level :=
    if targetToAdjusted ≥ Rat.divInt 6 5 then .low
    else if targetToAdjusted ≥ Rat.divInt 9 10 then .medium
    else if targetToAdjusted ≥ Rat.divInt 3 5 then .high
    else .extreme
  let criticalMilestones :=
    ["Week " ++ toString (jsCeil planningWeeks) ++ ": Planning complete, start development",
     "Week " ++ toString (jsCeil (qDiv baseWeeks 2)) ++ ": Core features working (50% complete)",
     "Week " ++ toString (jsCeil (qAdd baseWeeks planningWeeks))
       ++ ": All features complete, begin testing",
     "Week " ++ toString (jsCeil (qSub (adjustedTimeline : ℚ) deploymentWeeks))
       ++ ": Testing complete, prepare deployment",
     "Week " ++ toString adjustedTimeline ++ ": Launch!"]
  { sane := decide (riskLevel ≠ Level.extreme),
    riskLevel := riskLevel,
    adjustedTimeline := adjustedTimeline,
    bufferWeeks := jsCeil (bufferWeeks : ℚ),
    criticalMilestones := criticalMilestones }

-- ==========================================
-- scopeProtection.ts : feature prioritization
-- ==========================================

inductive Priority where
  | mustHave
  | shouldHave
  | niceToHave
  | defer
deriving DecidableEq

structure PrioritizedFeature where
  feature : String
  priority : Priority
  complexity : ComplexityScore
  reasoning : String
deriving DecidableEq

def prioritizeFeatures (features : List String) (timelineWeeks : ℚ) (mvpGoal : String) :
    List PrioritizedFeature :=
  let analyzed := features.map fun feature => (feature, analyzeFeatureComplexity feature)
  -- JavaScript's sort with comparator (a, b) => a.score - b.score is stable;
  -- insertionSort with ≤ is the same stable ascending sort
  let sorted := List.insertionSort (fun a b => a.2.score ≤ b.2.score) analyzed
  let coreWeeks := qMul timelineWeeks (Rat.divInt 7 10)
  let goalWords := splitOnChar ' ' (lowerStr mvpGoal)
  let step := fun (acc : ℚ × List PrioritizedFeature) (item : String × ComplexityScore) =>
    let isCore := goalWords.any fun word => jsIncludes (lowerStr item.1) word
    if isCore && decide (qAdd acc.1 (item.2.estimatedWeeks : ℚ) ≤ coreWeeks) then
      (qAdd acc.1 (item.2.estimatedWeeks : ℚ),
       acc.2 ++ [⟨item.1, .mustHave, item.2, "Core to MVP goal"⟩])
    else if decide (item.2.score ≤ 3)
        && decide (qAdd acc.1 (item.2.estimatedWeeks : ℚ)
          ≤ qMul timelineWeeks (Rat.divInt 9 10)) then
      (qAdd acc.1 (item.2.estimatedWeeks : ℚ),
       acc.2 ++ [⟨item.1, .shouldHave, item.2, "Low complexity, fits in timeline"⟩])
    else if decide (item.2.score ≤ 5)
        && decide (qAdd acc.1 (item.2.estimatedWeeks : ℚ) ≤ timelineWeeks) then
      (acc.1, acc.2 ++ [⟨item.1, .niceToHave, item.2, "Medium complexity, optional for MVP"⟩])
    else
      (acc.1, acc.2 ++ [⟨item.1, .defer, item.2,
        if item.2.score > 7 then "Too complex for MVP timeline"
        else "Insufficient time in current timeline"⟩])
  (sorted.foldl step (0, [])).2

-- ==========================================
-- scopeProtection.ts : warning system and comprehensive validator
-- ==========================================

inductive WarnLevel where
  | info
  | warning
  | critical
deriving DecidableEq

structure ScopeWarning where
  level : WarnLevel
  message : String
  suggestion : Option String
deriving DecidableEq

/-- `ScopeProtectionWarnings.getCriticalCount` on the accumulated warning list. -/
def criticalCount (warnings : List ScopeWarning) : ℕ :=
  (warnings.filter fun w => decide (w.level = WarnLevel.critical)).length

/-- `riskLevel.toUpperCase()` used in the timeline warning message. -/
def riskUpper : Level → String
  | .low => "LOW"
  | .medium => "MEDIUM"
  | .high => "HIGH"
  | .extreme => "EXTREME"

structure ScopeValidationInput where
  features : List String
  timelineWeeks : ℚ
  techStack : List String
  targetUsers : ℚ
  experienceLevel : ExperienceLevel
  mvpGoal : String

structure AdjustedScope where
  features : List PrioritizedFeature
  timeline : ℤ
deriving DecidableEq

structure ScopeValidationResult where
  valid : Bool
  shouldProceed : Bool
  warnings : List ScopeWarning
  recommendations : List String
  adjustedScope : AdjustedScope
deriving DecidableEq

def performComprehensiveScopeValidation (data : ScopeValidationInput) :
    ScopeValidationResult :=
  -- 1. check capacity
  let capacity :=
    validateSoloDeveloperCapacity data.features data.timelineWeeks data.experienceLevel
  let capacityWarnings : List ScopeWarning :=
    if !capacity.feasible then
      [⟨.critical,
        "Timeline too aggressive: " ++ capacity.utilizationPercent.display ++ "% utilization",
        some ("Extend to " ++ toString capacity.estimatedWeeks ++ " weeks or reduce scope")⟩]
    else if JSNum.gt capacity.utilizationPercent (.num 70) then
      [⟨.warning, "High utilization: " ++ capacity.utilizationPercent.display ++ "%",
        some "Consider adding buffer time"⟩]
    else []
  -- 2. check for overengineering
  let overengineering := detectOverengineering data.techStack data.features data.targetUsers
  let overengineeringWarnings : List ScopeWarning :=
    if overengineering.detected then
      (overengineering.issues.zip overengineering.suggestions).map fun p =>
        ⟨.warning, p.1, some p.2⟩
    else []
  -- 3. check timeline sanity
  let timeline := checkTimelineSanity data.features data.timelineWeeks
  let timelineWarnings : List ScopeWarning :=
    if !timeline.sane then
      [⟨.critical, "Timeline risk level: " ++ riskUpper timeline.riskLevel,
        some ("Adjust to " ++ toString timeline.adjustedTimeline ++ " weeks for safe delivery")⟩]
    else []
  -- 4. prioritize features
  let prioritized := prioritizeFeatures data.features data.timelineWeeks data.mvpGoal
  let mustHaves := prioritized.filter fun p => decide (p.priority = Priority.mustHave)
  let deferred := prioritized.filter fun p => decide (p.priority = Priority.defer)
  let mustHaveWarnings : List ScopeWarning :=
    if mustHaves.length = 0 then
      [⟨.critical, "No must-have features identified",
        some "Ensure at least one feature directly addresses MVP goal"⟩]
    else []
  let deferredWarnings : List ScopeWarning :=
    if deferred.length > 0 then
      [⟨.info, toString deferred.length ++ " features deferred to v2",
        some "Focus on must-haves first"⟩]
    else []
  let warnings := capacityWarnings ++ overengineeringWarnings ++ timelineWarnings
    ++ mustHaveWarnings ++ deferredWarnings
  let recommendations :=
    (if deferred.length > 0 then
      deferred.map fun d => "Defer: " ++ d.feature ++ " (" ++ d.reasoning ++ ")"
    else [])
    ++ (if capacity.recommendations.length > 0 then capacity.recommendations else [])
  { valid := decide (criticalCount warnings = 0),
    shouldProceed := decide (criticalCount warnings ≤ 1)
      && decide (timeline.riskLevel ≠ Level.extreme),
    warnings := warnings,
    recommendations := recommendations,
    adjustedScope := { features := prioritized, timeline := timeline.adjustedTimeline } }

-- ==========================================
-- prdZeroSchemas : scope protection validator
-- ==========================================

structure ScopeProtectionResult where
  valid : Bool
  message : String
  recommendation : Option String
deriving DecidableEq

def validateScopeProtection (features : List String) (timeline : ℚ) :
    ScopeProtectionResult :=
  let featureCount := features.length
  let weeksPerFeature := JSNum.div (.num timeline) (.num (featureCount : ℚ))
  if JSNum.lt weeksPerFeature (.num 1) then
    { valid := false,
      message := "Impossible timeline - less than 1 week per feature",
      recommendation := some "Reduce features to 3 maximum or extend timeline" }
  else if JSNum.lt weeksPerFeature (.num 2) && decide (featureCount > 3) then
    { valid := false,
      message := "Risky timeline - not enough time per feature",
      recommendation := some "Solo developers need 2+ weeks per feature for quality" }
  else if featureCount > 5 then
    { valid := false,
      message := "Too many features for MVP",
      recommendation := some "Maximum 3 core features + 2 nice-to-haves" }
  else
    { valid := true,
      message := "Scope is reasonable for timeline",
      recommendation := none }

-- ==========================================
-- prdZeroSchemas : technical feasibility validator
-- ==========================================

structure TechFeasibilityResult where
  feasible : Bool
  learningCurveWeeks : ℚ
  recommendation : Option String
deriving DecidableEq

def validateTechnicalFeasibility (knownTech requiredTech : List String)
    (timelineWeeks : ℚ) : TechFeasibilityResult :=
  let newTech := requiredTech.filter fun tech =>
    !(knownTech.any fun known => jsIncludes (lowerStr known) (lowerStr tech))
  -- estimate 1-2 weeks learning per new technology (the literal 1.5)
  let learningCurveWeeks := qMul (newTech.length : ℚ) (Rat.divInt 3 2)
  if learningCurveWeeks > qMul timelineWeeks (Rat.divInt 3 10) then
    { feasible := false,
      learningCurveWeeks := learningCurveWeeks,
      recommendation := some ("Too much learning required ("
        ++ toString (jsRound learningCurveWeeks)
        ++ " weeks). Stick to technologies you know.") }
  else if newTech.length > 2 then
    { feasible := false,
      learningCurveWeeks := learningCurveWeeks,
      recommendation := some "Learning more than 2 new technologies is risky for MVP" }
  else
    { feasible := true,
      learningCurveWeeks := learningCurveWeeks,
      recommendation := none }

-- ==========================================
-- prdZeroSchemas : timeline realism checker
-- ==========================================

structure TimelineRealismResult where
  realistic : Bool
  suggestedWeeks : ℤ
  confidence : JSNum
deriving DecidableEq

def validateTimelineRealism (features : ℕ) (timelineWeeks : ℚ)
    (isSolodev : Bool := true) : TimelineRealismResult :=
  let baseWeeksNeeded : ℚ := qMul (features : ℚ) (if isSolodev then 2 else 1)
  let suggestedWeeks : ℤ := jsCeil (qMul baseWeeksNeeded (Rat.divInt 3 2))
  let realistic := decide (timelineWeeks ≥ qMul (suggestedWeeks : ℚ) (Rat.divInt 4 5))
  let confidence :=
    if timelineWeeks < (suggestedWeeks : ℚ) then
      (JSNum.mul (JSNum.div (.num timelineWeeks) (.num (suggestedWeeks : ℚ))) (.num 100)).round.max0
    else .num 100
  { realistic := realistic, suggestedWeeks := suggestedWeeks, confidence := confidence }

-- ==========================================
-- prdZeroSchemas : MVP readiness score calculator
-- ==========================================

/-- Outcome of one scoring rule bucket of `calculateMVPReadiness`. -/
structure RuleBucket where
  deduction : ℤ
  strengths : List String := []
  weaknesses : List String := []
  blockers : List String := []

/-- Problem clarity rule (20 points). -/
def problemClarityBucket (painLevel : ℚ) : RuleBucket :=
  if painLevel ≥ 8 then { deduction := 0, strengths := ["Strong problem validation"] }
  else if painLevel < 6 then { deduction := 20, weaknesses := ["Weak problem validation"] }
  else { deduction := 10 }

/-- Scope control rule (30 points). -/
def scopeControlBucket (featureCount : ℕ) : RuleBucket :=
  if featureCount ≤ 4 then { deduction := 0, strengths := ["Well-controlled scope"] }
  else if featureCount > 6 then { deduction := 30, blockers := ["Scope too large for MVP"] }
  else { deduction := 15, weaknesses := ["Scope could be tighter"] }

/-- Technical feasibility rule (25 points). -/
def techFeasibilityBucket (techComplexity : ℕ) : RuleBucket :=
  if techComplexity ≤ 2 then { deduction := 0, strengths := ["Simple tech stack"] }
  else if techComplexity > 4 then { deduction := 25, blockers := ["Tech stack too complex"] }
  else { deduction := 12, weaknesses := ["Consider simplifying tech stack"] }

/-- Timeline realism rule (25 points). -/
def timelineRealismBucket (weeks : ℤ) : RuleBucket :=
  if 6 ≤ weeks ∧ weeks ≤ 12 then { deduction := 0, strengths := ["Realistic timeline"] }
  else if weeks < 3 then { deduction := 25, blockers := ["Timeline too aggressive"] }
  else if weeks > 20 then
    { deduction := 15, weaknesses := ["Timeline too long - risk losing momentum"] }
  else { deduction := 10 }

structure MVPReadiness where
  score : ℤ
  strengths : List String
  weaknesses : List String
  blockers : List String
deriving DecidableEq

/-- `calculateMVPReadiness` of prdZeroSchemas, narrowed to the fields of
`PRDZeroData` it actually reads: `problem.pain_level`, `scope.nice_to_have`,
`tech.known_frameworks`, and the launch target date.  The source derives
`weeks` as `Math.ceil((targetDate - today) / msPerWeek)`; that impure date
difference is taken here as the integer parameter `weeks`. -/
def calculateMVPReadiness (painLevel : ℚ) (niceToHave : List String)
    (knownFrameworks : String) (weeks : ℤ) : MVPReadiness :=
  let featureCount := 3 + niceToHave.length
  let techComplexity := (splitOnChar ',' knownFrameworks.data).length
  let p := problemClarityBucket painLevel
  let s := scopeControlBucket featureCount
  let t := techFeasibilityBucket techComplexity
  let w := timelineRealismBucket weeks
  { score := max 0 (100 - p.deduction - s.deduction - t.deduction - w.deduction),
    strengths := p.strengths ++ s.strengths ++ t.strengths ++ w.strengths,
    weaknesses := p.weaknesses ++ s.weaknesses ++ t.weaknesses ++ w.weaknesses,
    blockers := p.blockers ++ s.blockers ++ t.blockers ++ w.blockers }

-- ==========================================
-- questionTypeDetector.ts
-- ==========================================

inductive QuestionType where
  | PROBLEM_VALIDATION
  | VALUE_PROPOSITION
  | MVP_SCOPE
  | TECH_STACK
  | LAUNCH_PLAN
  | GENERIC
deriving DecidableEq

structure KeywordSet where
  keywords : List String
  weight : ℕ

structure QuestionTypeConfig where
  qtype : QuestionType
  keywordSets : List KeywordSet
  minScore : ℕ

def problemValidationConfig : QuestionTypeConfig :=
  { qtype := .PROBLEM_VALIDATION,
    keywordSets :=
      [⟨["problem", "issue", "pain", "challenge", "difficulty"], 3⟩,
       ⟨["solve", "solution", "address", "fix"], 2⟩,
       ⟨["target", "audience", "user", "customer"], 2⟩,
       ⟨["why", "need", "require"], 1⟩],
    minScore := 3 }

def valuePropositionConfig : QuestionTypeConfig :=
  { qtype := .VALUE_PROPOSITION,
    keywordSets :=
      [⟨["value", "benefit", "proposition", "unique"], 3⟩,
       ⟨["metric", "measure", "success", "kpi"], 2⟩,
       ⟨["different", "better", "compared", "alternative"], 2⟩,
       ⟨["offer", "provide", "deliver"], 1⟩],
    minScore := 3 }

def mvpScopeConfig : QuestionTypeConfig :=
  { qtype := .MVP_SCOPE,
    keywordSets :=
      [⟨["feature", "functionality", "capability"], 3⟩,
       ⟨["mvp", "minimum", "core", "essential"], 3⟩,
       ⟨["scope", "include", "exclude", "out of scope"], 2⟩,
       ⟨["list", "what", "which"], 1⟩],
    minScore := 3 }

def techStackConfig : QuestionTypeConfig :=
  { qtype := .TECH_STACK,
    keywordSets :=
      [⟨["technology", "tech", "stack", "framework"], 3⟩,
       ⟨["database", "backend", "frontend", "api"], 3⟩,
       ⟨["architecture", "infrastructure", "platform"], 2⟩,
       ⟨["language", "tool", "library", "service"], 2⟩,
       ⟨["use", "choose", "select"], 1⟩],
    minScore := 3 }

def launchPlanConfig : QuestionTypeConfig :=
  { qtype := .LAUNCH_PLAN,
    keywordSets :=
      [⟨["launch", "release", "deploy", "ship"], 3⟩,
       ⟨["timeline", "schedule", "week", "month", "deadline"], 3⟩,
       ⟨["marketing", "go-to-market", "gtm", "strategy"], 2⟩,
       ⟨["milestone", "phase", "step"], 2⟩,
       ⟨["when", "how long", "duration"], 1⟩],
    minScore := 3 }

def QUESTION_CONFIGS : List QuestionTypeConfig :=
  [problemValidationConfig, valuePropositionConfig, mvpScopeConfig,
   techStackConfig, launchPlanConfig]

/-- Keyword-weighted score of one question type configuration against the
lower-cased question text. -/
def configScore (lowerText : List Char) (config : QuestionTypeConfig) : ℕ :=
  config.keywordSets.foldl
    (fun score keywordSet =>
      let matchCount :=
        (keywordSet.keywords.filter fun keyword =>
          jsIncludes lowerText (lowerStr keyword)).length
      if matchCount > 0 then score + keywordSet.weight * matchCount else score)
    0

/-- `QuestionTypeDetector.detectType`.  The source first stores every type's
score in a map keyed by the (distinct) question types and then re-reads the
map while scanning the configurations in order; reading the map back yields
exactly `configScore` of the scanned configuration, which is used directly
here. -/
def detectType (questionText : String) : QuestionType :=
  let lowerText := lowerStr questionText
  let best := QUESTION_CONFIGS.foldl
    (fun best config =>
      let score := configScore lowerText config
      if decide (score ≥ config.minScore) && decide (score > best.2) then
        (config.qtype, score)
      else best)
    (QuestionType.GENERIC, 0)
  best.1

-- ==========================================
-- validation integrator (validateProject)
-- ==========================================

/-- The fields of `PRDData` read by `validateProject`. -/
structure PRDData where
  coreFeatures : List String
  solutionApproach : String
  description : String
  totalWeeks : ℤ
  frontend : List String
  backend : List String
  database : List String

/-- The slice of `transformToPRDZeroData`'s output that the validation path
reads.  `pain_level` is the hard-coded literal 7 of the source;
`nice_to_have` is `coreFeatures.slice(3, 8)`; `known_frameworks` is the
comma-joined frontend and backend stacks (or the fallback string).  The
source sets the launch target date to today plus `totalWeeks * 7` days and
`calculateMVPReadiness` recovers the week count as the ceiling of the date
difference, which is `totalWeeks` again; `weeksToTarget` records that
round-trip. -/
structure PRDZeroSlice where
  painLevel : ℚ
  niceToHave : List String
  knownFrameworks : String
  weeksToTarget : ℤ

def transformToPRDZeroData (data : PRDData) : PRDZeroSlice :=
  let joined := joinComma (data.frontend ++ data.backend)
  { painLevel := 7,
    niceToHave := (data.coreFeatures.drop 3).take 5,
    knownFrameworks := if joined = "" then "Not specified" else joined,
    weeksToTarget := data.totalWeeks }

/-- The fields of `ValidationReport` that do not depend on the zod schema
validation (`validatePRDData`), which is opaque third-party code; the `valid`,
`criticalIssues`, `warnings` and `summary` report fields mix in the schema
result and are omitted from the embedding, as are the presentation-only
`scopeAnalysis`, `timelineAnalysis` and `technicalAnalysis` blocks, none of
which feed `shouldProceed`, the readiness score or the blockers. -/
structure ValidationReport where
  shouldProceed : Bool
  mvpReadinessScore : ℤ
  blockers : List String
  recommendations : List String
deriving DecidableEq

/-- The `ScopeValidationInput` that `validateProject` hands to
`performComprehensiveScopeValidation`: the core features, the timeline, the
concatenated tech stack, the hard-coded default of 100 target users, the
hard-coded intermediate experience level, and the MVP goal (the solution
approach, falling back to the project description when empty, as JavaScript
`||` does). -/
def validateProjectScopeInput (data : PRDData) : ScopeValidationInput :=
  { features := data.coreFeatures,
    timelineWeeks := (data.totalWeeks : ℚ),
    techStack := data.frontend ++ data.backend ++ data.database,
    targetUsers := 100,
    experienceLevel := .intermediate,
    mvpGoal := if data.solutionApproach = "" then data.description
      else data.solutionApproach }

def validateProject (data : PRDData) : ValidationReport :=
  let prdZero := transformToPRDZeroData data
  let mvpReadiness := calculateMVPReadiness prdZero.painLevel prdZero.niceToHave
    prdZero.knownFrameworks prdZero.weeksToTarget
  let scopeValidation := performComprehensiveScopeValidation (validateProjectScopeInput data)
  { shouldProceed := scopeValidation.shouldProceed && decide (mvpReadiness.score ≥ 60),
    mvpReadinessScore := mvpReadiness.score,
    blockers := mvpReadiness.blockers,
    recommendations := scopeValidation.recommendations }

/-- The concrete session used to separate `validateProject.shouldProceed` from
the three-gate reading of claim C2: seven trivial features (so the readiness
scope bucket blocks with a -30 deduction and score 60), a 12-week timeline
(timeline bucket strength), and a two-entry known stack (tech bucket
strength). -/
def c2Session : PRDData :=
  { coreFeatures := ["page one", "page two", "page three", "page four",
      "page five", "page six", "page seven"],
    solutionApproach := "page builder",
    description := "a simple builder",
    totalWeeks := 12,
    frontend := ["React"],
    backend := ["Node"],
    database := [] }

-- ==========================================
-- Bridge lemmas: the kernel-computable wrappers agree with Mathlib
-- ==========================================

theorem num_eq_mul_den (a : ℚ) : (a.num : ℚ) = a * a.den := by
  have ha : (a.den : ℚ) ≠ 0 := by positivity
  exact (div_eq_iff ha).mp (Rat.num_div_den a)

theorem qAdd_eq (a b : ℚ) : qAdd a b = a + b := by
  have ha : (a.den : ℚ) ≠ 0 := by positivity
  have hb : (b.den : ℚ) ≠ 0 := by positivity
  rw [qAdd, Rat.divInt_eq_div]
  push_cast
  rw [num_eq_mul_den a, num_eq_mul_den b, div_eq_iff (mul_ne_zero ha hb)]
  ring

theorem qSub_eq (a b : ℚ) : qSub a b = a - b := by
  have ha : (a.den : ℚ) ≠ 0 := by positivity
  have hb : (b.den : ℚ) ≠ 0 := by positivity
  rw [qSub, Rat.divInt_eq_div]
  push_cast
  rw [num_eq_mul_den a, num_eq_mul_den b, div_eq_iff (mul_ne_zero ha hb)]
  ring

theorem qMul_eq (a b : ℚ) : qMul a b = a * b := by
  have ha : (a.den : ℚ) ≠ 0 := by positivity
  have hb : (b.den : ℚ) ≠ 0 := by positivity
  rw [qMul, Rat.divInt_eq_div]
  push_cast
  rw [num_eq_mul_den a, num_eq_mul_den b, div_eq_iff (mul_ne_zero ha hb)]
  ring

theorem qDiv_eq (a b : ℚ) : qDiv a b = a / b := by
  rcases eq_or_ne b 0 with rfl | hbz
  · simp [qDiv]
  · have ha : (a.den : ℚ) ≠ 0 := by positivity
    have hbn : (b.num : ℚ) ≠ 0 := by exact_mod_cast Rat.num_ne_zero.mpr hbz
    rw [qDiv, Rat.divInt_eq_div]
    push_cast
    rw [div_eq_div_iff (mul_ne_zero ha hbn) hbz, num_eq_mul_den a, num_eq_mul_den b]
    ring

theorem jsMin_eq (a b : ℚ) : jsMin a b = min a b := by
  rw [jsMin, min_def]

theorem jsFloor_eq (q : ℚ) : jsFloor q = ⌊q⌋ := by
  rw [jsFloor, Rat.floor_def]

theorem jsCeil_eq (q : ℚ) : jsCeil q = ⌈q⌉ := by
  have hneg : jsFloor (-q) = -q.num / (q.den : ℤ) := by
    rw [jsFloor]
    simp
  rw [jsCeil, ← hneg, jsFloor_eq, Int.floor_neg, neg_neg]

theorem jsRound_eq (q : ℚ) : jsRound q = round q := by
  rw [jsRound, jsFloor_eq, qAdd_eq, round_eq]
  congr 1
  rw [Rat.divInt_eq_div]
  norm_num

theorem divInt_eq_div' (a b : ℤ) : Rat.divInt a b = (a : ℚ) / (b : ℚ) :=
  Rat.divInt_eq_div a b

-- ==========================================
-- Generic list lemmas
-- ==========================================

theorem foldl_qAdd_sum {α : Type} (f : α → ℚ) (l : List α) (i : ℚ) :
    l.foldl (fun sum c => qAdd sum (f c)) i = i + (l.map f).sum := by
  induction l generalizing i with
  | nil => simp
  | cons x xs ih =>
    rw [List.foldl_cons, ih (qAdd i (f x)), qAdd_eq]
    simp only [List.map_cons, List.sum_cons]
    ring

theorem filter_length_mono {α : Type} (l : List α) (p q : α → Bool)
    (h : ∀ a ∈ l, p a = true → q a = true) :
    (l.filter p).length ≤ (l.filter q).length := by
  induction l with
  | nil => simp
  | cons x xs ih =>
    simp only [List.filter_cons]
    have ih' := ih fun a ha hp => h a (List.mem_cons_of_mem _ ha) hp
    by_cases hp : p x = true
    · rw [hp, h x (List.mem_cons_self _ _) hp]
      simpa using ih'
    · simp only [Bool.not_eq_true] at hp
      rw [hp]
      rcases hq : q x <;> simp <;> omega

theorem infix_append_right {α : Type} {t a : List α} (b : List α) (h : t <:+: a) :
    t <:+: a ++ b := by
  obtain ⟨s, u, rfl⟩ := h
  exact ⟨s, u ++ b, by simp⟩

theorem lowerStr_append (s t : String) : lowerStr (s ++ t) = lowerStr s ++ lowerStr t := by
  show (s.data ++ t.data).map Char.toLower = _
  exact List.map_append Char.toLower s.data t.data

theorem jsIncludes_append_left (s t : String) (w : List Char)
    (h : jsIncludes (lowerStr s) w = true) : jsIncludes (lowerStr (s ++ t)) w = true := by
  simp only [jsIncludes, decide_eq_true_eq] at h ⊢
  rw [lowerStr_append]
  exact infix_append_right _ h

theorem string_length_append_le (s t : String) : s.length ≤ (s ++ t).length := by
  show s.data.length ≤ (s.data ++ t.data).length
  simp

-- ==========================================
-- Closed form of the complexity score
-- ==========================================

theorem complexityRawScore_eq (high medium : ℕ) (creep long : Bool) :
    complexityRawScore high medium creep long
      = min 10 (1 + 3 * (high : ℚ) + (3 / 2 : ℚ) * (medium : ℚ)
        + (if creep then (2 : ℚ) else 0) + (if long then (1 : ℚ) else 0)) := by
  unfold complexityRawScore
  rw [jsMin_eq]
  congr 1
  rcases Nat.eq_zero_or_pos high with hh | hh <;>
    rcases Nat.eq_zero_or_pos medium with hm | hm <;>
      rcases creep <;> rcases long <;>
        simp [hh, hm, qAdd_eq, qMul_eq, divInt_eq_div'] <;> ring

theorem score_terms_nonneg (high medium : ℕ) (creep long : Bool) :
    0 ≤ 3 * (high : ℚ) + (3 / 2 : ℚ) * (medium : ℚ)
      + (if creep then (2 : ℚ) else 0) + (if long then (1 : ℚ) else 0) := by
  rcases creep <;> rcases long <;> simp <;> positivity

theorem analyze_score_spec (s : String) :
    (analyzeFeatureComplexity s).score
      = complexityRawScore (highMatches s).length (mediumMatches s).length
        (scopeCreepIn s) (decide (s.length > 100)) := rfl

theorem analyze_weeks_spec (s : String) :
    (analyzeFeatureComplexity s).estimatedWeeks
      = jsCeil (qDiv (analyzeFeatureComplexity s).score 2) := rfl

theorem analyze_level_spec (s : String) :
    (analyzeFeatureComplexity s).level
      = (if (analyzeFeatureComplexity s).score ≤ 3 then Level.low
         else if (analyzeFeatureComplexity s).score ≤ 5 then Level.medium
         else if (analyzeFeatureComplexity s).score ≤ 8 then Level.high
         else Level.extreme) := rfl

theorem analyze_warnings_spec (s : String) :
    (analyzeFeatureComplexity s).warnings
      = (if (highMatches s).length > 0 then
          ["High complexity detected: " ++ joinComma (highMatches s)] else [])
        ++ (if (mediumMatches s).length > 0 then
          ["Medium complexity elements: " ++ joinComma (mediumMatches s)] else [])
        ++ (if scopeCreepIn s = true then
          ["Multiple sub-features detected - consider splitting"] else [])
        ++ (if s.length > 100 then
          ["Feature description too detailed - might be multiple features"] else []) := rfl

-- ==========================================
-- Claim C6
-- ==========================================

theorem analyze_score_ge_one (s : String) : 1 ≤ (analyzeFeatureComplexity s).score := by
  have hterm := score_terms_nonneg (highMatches s).length (mediumMatches s).length
    (scopeCreepIn s) (decide (s.length > 100))
  rw [analyze_score_spec, complexityRawScore_eq]
  exact le_min (by norm_num) (by linarith)

theorem analyze_score_le_ten (s : String) : (analyzeFeatureComplexity s).score ≤ 10 := by
  rw [analyze_score_spec, complexityRawScore_eq]
  exact min_le_left _ _

theorem analyze_weeks_eq_ceil (s : String) :
    (analyzeFeatureComplexity s).estimatedWeeks = ⌈(analyzeFeatureComplexity s).score / 2⌉ := by
  rw [analyze_weeks_spec, jsCeil_eq, qDiv_eq]

theorem analyze_weeks_pos (s : String) : 1 ≤ (analyzeFeatureComplexity s).estimatedWeeks := by
  rw [analyze_weeks_eq_ceil]
  have h1 := analyze_score_ge_one s
  have hpos : (0 : ℚ) < (analyzeFeatureComplexity s).score / 2 := by linarith
  have := Int.ceil_pos.mpr hpos
  omega

/-- Claim C6: for every feature string, the `ComplexityScore` returned by
`analyzeFeatureComplexity` satisfies `1 ≤ score ≤ 10`, and `estimatedWeeks`
equals `⌈score / 2⌉`, hence is an integer at least 1. -/
theorem complexity_score_bounds_and_weeks (s : String) :
    1 ≤ (analyzeFeatureComplexity s).score
    ∧ (analyzeFeatureComplexity s).score ≤ 10
    ∧ (analyzeFeatureComplexity s).estimatedWeeks = ⌈(analyzeFeatureComplexity s).score / 2⌉
    ∧ 1 ≤ (analyzeFeatureComplexity s).estimatedWeeks :=
  ⟨analyze_score_ge_one s, analyze_score_le_ten s, analyze_weeks_eq_ceil s,
    analyze_weeks_pos s⟩

-- ==========================================
-- Claim C3
-- ==========================================

/-- Claim C3, counterexample: the feature string `"plus"` contains none of the
known complexity keywords (high, medium or low) as a case-insensitive
substring and has length at most 100, yet its score is 3, not 1: the claim as
stated is false because the scope-creep connector phrases (here `"plus"`
itself) also raise the score. -/
theorem complexity_keyword_free_score_counterexample :
    (∀ k ∈ COMPLEXITY_KEYWORDS_high ++ COMPLEXITY_KEYWORDS_medium ++ COMPLEXITY_KEYWORDS_low,
      jsIncludes (lowerStr "plus") (lowerStr k) = false)
    ∧ "plus".length ≤ 100
    ∧ (analyzeFeatureComplexity "plus").score = 3
    ∧ (analyzeFeatureComplexity "plus").score ≠ 1 := by
  decide

/-- Claim C3 (amended): for every feature string of length at most 100 that
contains none of the known complexity keywords and none of the scope-creep
connector phrases as a substring of its lower-cased text,
`analyzeFeatureComplexity` returns score 1 and level `low`. -/
theorem complexity_keyword_free_score_one (s : String) (hlen : s.length ≤ 100)
    (hhigh : ∀ k ∈ COMPLEXITY_KEYWORDS_high, jsIncludes (lowerStr s) (lowerStr k) = false)
    (hmed : ∀ k ∈ COMPLEXITY_KEYWORDS_medium, jsIncludes (lowerStr s) (lowerStr k) = false)
    (hcreep : ∀ p ∈ SCOPE_CREEP_PHRASES, jsIncludes (lowerStr s) p.data = false) :
    (analyzeFeatureComplexity s).score = 1
    ∧ (analyzeFeatureComplexity s).level = Level.low := by
  have hhigh0 : highMatches s = [] := by
    rw [highMatches]
    refine List.filter_eq_nil_iff.mpr ?_
    intro k hk
    simp [hhigh k hk]
  have hmed0 : mediumMatches s = [] := by
    rw [mediumMatches]
    refine List.filter_eq_nil_iff.mpr ?_
    intro k hk
    simp [hmed k hk]
  have hcreep0 : scopeCreepIn s = false := by
    rw [scopeCreepIn]
    refine List.any_eq_false.mpr ?_
    intro p hp
    simp [hcreep p hp]
  have hlong : decide (s.length > 100) = false := by
    simp only [decide_eq_false_iff_not, gt_iff_lt, not_lt]
    exact hlen
  have hscore : (analyzeFeatureComplexity s).score = 1 := by
    rw [analyze_score_spec, hhigh0, hmed0, hcreep0, hlong, complexityRawScore_eq]
    norm_num
  refine ⟨hscore, ?_⟩
  rw [analyze_level_spec, hscore]
  norm_num

/-- Claim C3 witness: the amended theorem applied to the concrete feature
string "hello". -/
theorem complexity_keyword_free_score_one_witness :
    (analyzeFeatureComplexity "hello").score = 1
    ∧ (analyzeFeatureComplexity "hello").level = Level.low :=
  complexity_keyword_free_score_one "hello" (by decide) (by decide) (by decide) (by decide)

-- ==========================================
-- Claim C10
-- ==========================================

theorem min_ten_ne_one {x : ℚ} (hx : 2 ≤ x) : min 10 x ≠ 1 := by
  intro h
  rcases min_eq_iff.mp h with ⟨h1, _⟩ | ⟨h1, _⟩ <;> linarith

/-- Claim C10: for every feature string, the warnings list returned by
`analyzeFeatureComplexity` is empty exactly when the score is 1: every rule
that raises the score also appends a warning and conversely. -/
theorem complexity_warnings_empty_iff_score_one (s : String) :
    (analyzeFeatureComplexity s).warnings = [] ↔ (analyzeFeatureComplexity s).score = 1 := by
  rw [analyze_warnings_spec, analyze_score_spec, complexityRawScore_eq]
  rcases hh : (highMatches s).length with _ | nh
  · rcases hm : (mediumMatches s).length with _ | nm
    · rcases hc : scopeCreepIn s
      · by_cases hl : s.length > 100
        · have hld : decide (s.length > 100) = true := by simp [hl]
          simp only [hh, hm, hc, hl, hld]
          simp only [gt_iff_lt, lt_self_iff_false, if_false, if_true, Nat.cast_zero,
            Bool.false_eq_true, List.nil_append]
          constructor
          · intro hcontra
            exact absurd hcontra (by simp)
          · intro hcontra
            exact absurd hcontra (by norm_num [min_ten_ne_one])
        · have hld : decide (s.length > 100) = false := by simp [hl]
          simp only [hh, hm, hc, hl, hld]
          norm_num
      · have h2 : (2 : ℚ) ≤ 1 + 3 * ((0 : ℕ) : ℚ) + (3 / 2 : ℚ) * ((0 : ℕ) : ℚ) + 2
            + (if decide (s.length > 100) then (1 : ℚ) else 0) := by
          have : (0:ℚ) ≤ (if decide (s.length > 100) then (1 : ℚ) else 0) := by
            split <;> norm_num
          push_cast
          linarith
        simp only [hh, hm, hc]
        constructor
        · intro hcontra
          simp at hcontra
        · intro hcontra
          rw [show ((0:ℕ):ℚ) = 0 by norm_num] at h2
          exact absurd hcontra (by simpa using min_ten_ne_one h2)
    · have h2 : (2 : ℚ) ≤ 1 + 3 * ((0 : ℕ) : ℚ) + (3 / 2 : ℚ) * ((nm + 1 : ℕ) : ℚ)
          + (if scopeCreepIn s = true then (2 : ℚ) else 0)
          + (if decide (s.length > 100) then (1 : ℚ) else 0) := by
        have ha : (0:ℚ) ≤ (if scopeCreepIn s = true then (2 : ℚ) else 0) := by
          split <;> norm_num
        have hb : (0:ℚ) ≤ (if decide (s.length > 100) then (1 : ℚ) else 0) := by
          split <;> norm_num
        have hc : (1:ℚ) ≤ ((nm + 1 : ℕ) : ℚ) := by exact_mod_cast Nat.one_le_iff_ne_zero.mpr (by omega)
        push_cast at hc ⊢
        nlinarith
      constructor
      · intro hcontra
        simp at hcontra
      · intro hcontra
        exact absurd hcontra (by simpa using min_ten_ne_one h2)
  · have h2 : (2 : ℚ) ≤ 1 + 3 * ((nh + 1 : ℕ) : ℚ)
        + (3 / 2 : ℚ) * (((mediumMatches s).length : ℕ) : ℚ)
        + (if scopeCreepIn s = true then (2 : ℚ) else 0)
        + (if decide (s.length > 100) then (1 : ℚ) else 0) := by
      have ha : (0:ℚ) ≤ (if scopeCreepIn s = true then (2 : ℚ) else 0) := by
        split <;> norm_num
      have hb : (0:ℚ) ≤ (if decide (s.length > 100) then (1 : ℚ) else 0) := by
        split <;> norm_num
      have hcc : (1:ℚ) ≤ ((nh + 1 : ℕ) : ℚ) := by exact_mod_cast Nat.one_le_iff_ne_zero.mpr (by omega)
      have hm0 : (0:ℚ) ≤ (((mediumMatches s).length : ℕ) : ℚ) := by positivity
      push_cast at hcc hm0 ⊢
      nlinarith
    constructor
    · intro hcontra
      simp at hcontra
    · intro hcontra
      exact absurd hcontra (by simpa using min_ten_ne_one h2)

-- ==========================================
-- Claim C8
-- ==========================================

theorem highMatches_length_mono (s k : String) :
    (highMatches s).length ≤ (highMatches (s ++ k)).length :=
  filter_length_mono _ _ _ fun a _ hp => jsIncludes_append_left s k (lowerStr a) hp

theorem mediumMatches_length_mono (s k : String) :
    (mediumMatches s).length ≤ (mediumMatches (s ++ k)).length :=
  filter_length_mono _ _ _ fun a _ hp => jsIncludes_append_left s k (lowerStr a) hp

theorem scopeCreepIn_mono (s k : String) (h : scopeCreepIn s = true) :
    scopeCreepIn (s ++ k) = true := by
  rw [scopeCreepIn] at h ⊢
  rw [List.any_eq_true] at h ⊢
  obtain ⟨p, hp, hinc⟩ := h
  exact ⟨p, hp, jsIncludes_append_left s k p.data hinc⟩

/-- Claim C8: appending any high-complexity keyword (indeed, any string) to a
feature string never decreases the complexity score. -/
theorem complexity_score_monotone_append (s k : String)
    (_hk : k ∈ COMPLEXITY_KEYWORDS_high) :
    (analyzeFeatureComplexity s).score ≤ (analyzeFeatureComplexity (s ++ k)).score := by
  rw [analyze_score_spec, analyze_score_spec, complexityRawScore_eq, complexityRawScore_eq]
  apply min_le_min le_rfl
  have h1 : ((highMatches s).length : ℚ) ≤ ((highMatches (s ++ k)).length : ℚ) := by
    exact_mod_cast highMatches_length_mono s k
  have h2 : ((mediumMatches s).length : ℚ) ≤ ((mediumMatches (s ++ k)).length : ℚ) := by
    exact_mod_cast mediumMatches_length_mono s k
  have h3 : (if scopeCreepIn s then (2 : ℚ) else 0)
      ≤ (if scopeCreepIn (s ++ k) then (2 : ℚ) else 0) := by
    rcases hcs : scopeCreepIn s
    · rcases scopeCreepIn (s ++ k) <;> norm_num
    · rw [scopeCreepIn_mono s k hcs]
  have h4 : (if decide (s.length > 100) then (1 : ℚ) else 0)
      ≤ (if decide ((s ++ k).length > 100) then (1 : ℚ) else 0) := by
    rcases hls : decide (s.length > 100)
    · rcases decide ((s ++ k).length > 100) <;> norm_num
    · have hgt : decide ((s ++ k).length > 100) = true := by
        simp only [decide_eq_true_eq, gt_iff_lt]
        exact lt_of_lt_of_le (by simpa using hls) (string_length_append_le s k)
      rw [hgt]
  have h1' := mul_le_mul_of_nonneg_left h1 (by norm_num : (0:ℚ) ≤ 3)
  have h2' := mul_le_mul_of_nonneg_left h2 (by norm_num : (0:ℚ) ≤ 3 / 2)
  linarith

/-- Claim C8 witness: the monotonicity theorem applied to the feature "x" and
the high-complexity keyword "blockchain". -/
theorem complexity_score_monotone_append_witness :
    "blockchain" ∈ COMPLEXITY_KEYWORDS_high
    ∧ (analyzeFeatureComplexity "x").score
      ≤ (analyzeFeatureComplexity ("x" ++ "blockchain")).score :=
  ⟨by decide, complexity_score_monotone_append "x" "blockchain" (by decide)⟩

-- ==========================================
-- Claim C5
-- ==========================================

theorem problemClarityBucket_spec (p : ℚ) :
    0 ≤ (problemClarityBucket p).deduction
    ∧ (problemClarityBucket p).deduction ≤ 20
    ∧ ((problemClarityBucket p).deduction = 0 ↔ p ≥ 8)
    ∧ (problemClarityBucket p).strengths.length = (if p ≥ 8 then 1 else 0) := by
  unfold problemClarityBucket
  split_ifs <;> simp_all

theorem scopeControlBucket_spec (fc : ℕ) :
    0 ≤ (scopeControlBucket fc).deduction
    ∧ (scopeControlBucket fc).deduction ≤ 30
    ∧ ((scopeControlBucket fc).deduction = 0 ↔ fc ≤ 4)
    ∧ (scopeControlBucket fc).strengths.length = (if fc ≤ 4 then 1 else 0) := by
  unfold scopeControlBucket
  split_ifs <;> simp_all

theorem techFeasibilityBucket_spec (tc : ℕ) :
    0 ≤ (techFeasibilityBucket tc).deduction
    ∧ (techFeasibilityBucket tc).deduction ≤ 25
    ∧ ((techFeasibilityBucket tc).deduction = 0 ↔ tc ≤ 2)
    ∧ (techFeasibilityBucket tc).strengths.length = (if tc ≤ 2 then 1 else 0) := by
  unfold techFeasibilityBucket
  split_ifs <;> simp_all

theorem timelineRealismBucket_spec (w : ℤ) :
    0 ≤ (timelineRealismBucket w).deduction
    ∧ (timelineRealismBucket w).deduction ≤ 25
    ∧ ((timelineRealismBucket w).deduction = 0 ↔ (6 ≤ w ∧ w ≤ 12))
    ∧ (timelineRealismBucket w).strengths.length = (if 6 ≤ w ∧ w ≤ 12 then 1 else 0) := by
  unfold timelineRealismBucket
  split_ifs <;> simp_all

/-- Claim C5: the MVP readiness score always lies in [0, 100]; it equals 100
exactly when all four rule buckets take their strength branch (equivalently,
exactly when all four strength notes are present), and the four buckets'
maximal deductions sum to at most 100. -/
theorem mvp_readiness_score_spec (painLevel : ℚ) (niceToHave : List String)
    (knownFrameworks : String) (weeks : ℤ) :
    0 ≤ (calculateMVPReadiness painLevel niceToHave knownFrameworks weeks).score
    ∧ (calculateMVPReadiness painLevel niceToHave knownFrameworks weeks).score ≤ 100
    ∧ ((calculateMVPReadiness painLevel niceToHave knownFrameworks weeks).score = 100
        ↔ (calculateMVPReadiness painLevel niceToHave knownFrameworks weeks).strengths.length = 4)
    ∧ ((calculateMVPReadiness painLevel niceToHave knownFrameworks weeks).score = 100
        ↔ (painLevel ≥ 8 ∧ 3 + niceToHave.length ≤ 4
          ∧ (splitOnChar ',' knownFrameworks.data).length ≤ 2
          ∧ (6 ≤ weeks ∧ weeks ≤ 12)))
    ∧ (problemClarityBucket painLevel).deduction
        + (scopeControlBucket (3 + niceToHave.length)).deduction
        + (techFeasibilityBucket ((splitOnChar ',' knownFrameworks.data).length)).deduction
        + (timelineRealismBucket weeks).deduction ≤ 100 := by
  obtain ⟨hp0, hp20, hpiff, hplen⟩ := problemClarityBucket_spec painLevel
  obtain ⟨hs0, hs30, hsiff, hslen⟩ := scopeControlBucket_spec (3 + niceToHave.length)
  obtain ⟨ht0, ht25, htiff, htlen⟩ :=
    techFeasibilityBucket_spec ((splitOnChar ',' knownFrameworks.data).length)
  obtain ⟨hw0, hw25, hwiff, hwlen⟩ := timelineRealismBucket_spec weeks
  have hscore : (calculateMVPReadiness painLevel niceToHave knownFrameworks weeks).score
      = max 0 (100 - (problemClarityBucket painLevel).deduction
        - (scopeControlBucket (3 + niceToHave.length)).deduction
        - (techFeasibilityBucket ((splitOnChar ',' knownFrameworks.data).length)).deduction
        - (timelineRealismBucket weeks).deduction) := rfl
  have hstr : (calculateMVPReadiness painLevel niceToHave knownFrameworks weeks).strengths
      = (problemClarityBucket painLevel).strengths
        ++ (scopeControlBucket (3 + niceToHave.length)).strengths
        ++ (techFeasibilityBucket ((splitOnChar ',' knownFrameworks.data).length)).strengths
        ++ (timelineRealismBucket weeks).strengths := rfl
  have hcond : (calculateMVPReadiness painLevel niceToHave knownFrameworks weeks).score = 100
      ↔ (painLevel ≥ 8 ∧ 3 + niceToHave.length ≤ 4
        ∧ (splitOnChar ',' knownFrameworks.data).length ≤ 2
        ∧ (6 ≤ weeks ∧ weeks ≤ 12)) := by
    rw [hscore]
    constructor
    · intro h
      refine ⟨hpiff.mp ?_, hsiff.mp ?_, htiff.mp ?_, hwiff.mp ?_⟩ <;> omega
    · rintro ⟨c1, c2, c3, c4⟩
      have e1 := hpiff.mpr c1
      have e2 := hsiff.mpr c2
      have e3 := htiff.mpr c3
      have e4 := hwiff.mpr c4
      omega
  refine ⟨?_, ?_, ?_, hcond, ?_⟩
  · rw [hscore]
    exact le_max_left _ _
  · rw [hscore]
    apply max_le <;> omega
  · rw [hcond, hstr]
    simp only [List.length_append, hplen, hslen, htlen, hwlen]
    split_ifs <;> simp_all
  · omega

-- ==========================================
-- Claim C9
-- ==========================================

/-- Claim C9 (amended): for the empty feature list and every timeline at
least 0, `validateScopeProtection` returns the valid verdict with the
reasonable-scope message: the weeks-per-feature quotient is NaN (timeline 0)
or +∞ (positive timeline) and none of the three invalid guards fires.  For
negative timelines the quotient is −∞ and the first guard fires, so the
claim's unrestricted "every timeline value" fails (see the counterexample). -/
theorem scope_protection_empty_features (t : ℚ) (ht : 0 ≤ t) :
    (validateScopeProtection [] t).valid = true
    ∧ (validateScopeProtection [] t).message = "Scope is reasonable for timeline" := by
  rcases ht.eq_or_gt with h0 | hpos
  · unfold validateScopeProtection
    simp [JSNum.div, JSNum.lt, ← h0]
  · unfold validateScopeProtection
    simp [JSNum.div, JSNum.lt, hpos, hpos.ne']

/-- Claim C9 counterexample: at the empty feature list and timeline −1, the
JavaScript quotient −1/0 is −∞, which is less than 1, so the first invalid
branch fires and the validator reports an impossible timeline instead of the
claimed valid verdict. -/
theorem scope_protection_empty_features_counterexample :
    (validateScopeProtection [] (-1)).valid = false
    ∧ (validateScopeProtection [] (-1)).message
      = "Impossible timeline - less than 1 week per feature" := by
  decide

/-- Claim C9 witness: the amended theorem applied at timeline 5. -/
theorem scope_protection_empty_features_witness :
    (0 : ℚ) ≤ 5
    ∧ ((validateScopeProtection [] 5).valid = true
      ∧ (validateScopeProtection [] 5).message = "Scope is reasonable for timeline") :=
  ⟨by norm_num, scope_protection_empty_features 5 (by norm_num)⟩

-- ==========================================
-- Claim C1
-- ==========================================

theorem capacity_est_eq (features : List String) (lvl : ExperienceLevel) :
    qMul (qMul ((features.map analyzeFeatureComplexity).foldl
        (fun sum c => qAdd sum (c.estimatedWeeks : ℚ)) 0) (experienceMultiplier lvl))
      (Rat.divInt 13 10)
    = (features.map fun f => ((analyzeFeatureComplexity f).estimatedWeeks : ℚ)).sum
      * experienceMultiplier lvl * (13 / 10 : ℚ) := by
  rw [qMul_eq, qMul_eq, divInt_eq_div',
    foldl_qAdd_sum (fun c : ComplexityScore => (c.estimatedWeeks : ℚ))]
  simp only [List.map_map, Function.comp_def]
  push_cast
  ring

theorem capacity_feasible_eq (features : List String) (t : ℚ) (lvl : ExperienceLevel) :
    (validateSoloDeveloperCapacity features t lvl).feasible
      = JSNum.le (specUtilization features t lvl) (.num 80) := by
  simp only [validateSoloDeveloperCapacity, specUtilization]
  rw [capacity_est_eq]

theorem capacity_field_eq (features : List String) (t : ℚ) (lvl : ExperienceLevel) :
    (validateSoloDeveloperCapacity features t lvl).utilizationPercent
      = (specUtilization features t lvl).round := by
  simp only [validateSoloDeveloperCapacity, specUtilization]
  rw [capacity_est_eq]

/-- Claim C1 (amended): `feasible` holds exactly when the unrounded
utilization (estimated weeks after the experience and 1.3 overhead
multipliers, divided by the available weeks, times 100) is at most 80.  The
`utilizationPercent` field stores `Math.round` of that quantity, so
`feasible` only implies that the stored field is at most 80; the converse
fails when the unrounded utilization lies in (80, 80.5], which rounds down
to 80 while `feasible` is false (see the counterexample). -/
theorem capacity_feasible_iff_utilization (features : List String) (t : ℚ)
    (lvl : ExperienceLevel) :
    ((validateSoloDeveloperCapacity features t lvl).feasible = true
      ↔ JSNum.le (specUtilization features t lvl) (.num 80) = true)
    ∧ (validateSoloDeveloperCapacity features t lvl).utilizationPercent
      = (specUtilization features t lvl).round
    ∧ ((validateSoloDeveloperCapacity features t lvl).feasible = true
      → JSNum.le (validateSoloDeveloperCapacity features t lvl).utilizationPercent
        (.num 80) = true) := by
  refine ⟨by rw [capacity_feasible_eq], capacity_field_eq features t lvl, ?_⟩
  intro hfe
  rw [capacity_field_eq]
  rw [capacity_feasible_eq] at hfe
  rcases hu : specUtilization features t lvl with q | _ | _ | _
  · rw [hu] at hfe
    have hq : q ≤ 80 := by simpa [JSNum.le] using hfe
    have hr : jsRound q ≤ 80 := by
      rw [jsRound_eq, round_eq]
      have h1 : ⌊q + 1 / 2⌋ ≤ ⌊(80 : ℚ) + 1 / 2⌋ := Int.floor_le_floor (by linarith)
      have h2 : ⌊(80 : ℚ) + 1 / 2⌋ = 80 := by
        rw [Int.floor_eq_iff]
        norm_num
      omega
    simp only [JSNum.round, JSNum.le, decide_eq_true_eq]
    exact_mod_cast hr
  · rw [hu] at hfe
    simp [JSNum.le] at hfe
  · simp [JSNum.round, JSNum.le]
  · rw [hu] at hfe
    simp [JSNum.le] at hfe

/-- Claim C1 counterexample: thirteen one-week features against a 21-week
timeline give an unrounded utilization of 1690/21 ≈ 80.48, so `feasible` is
false, yet the rounded `utilizationPercent` field stores exactly 80, which
is at most 80 — the claimed equivalence between `feasible` and the stored
field being at most 80 is false. -/
theorem capacity_feasible_field_counterexample :
    (validateSoloDeveloperCapacity (List.replicate 13 "a") 21 .intermediate).feasible = false
    ∧ (validateSoloDeveloperCapacity (List.replicate 13 "a") 21 .intermediate).utilizationPercent
      = JSNum.num 80
    ∧ JSNum.le
        (validateSoloDeveloperCapacity (List.replicate 13 "a") 21 .intermediate).utilizationPercent
        (.num 80) = true := by
  decide

/-- Claim C1 witness: the amended theorem applied at one feature, a 10-week
timeline and the intermediate experience level. -/
theorem capacity_feasible_iff_utilization_witness :
    ((validateSoloDeveloperCapacity ["a"] 10 .intermediate).feasible = true
      ↔ JSNum.le (specUtilization ["a"] 10 .intermediate) (.num 80) = true)
    ∧ (validateSoloDeveloperCapacity ["a"] 10 .intermediate).utilizationPercent
      = (specUtilization ["a"] 10 .intermediate).round
    ∧ ((validateSoloDeveloperCapacity ["a"] 10 .intermediate).feasible = true
      → JSNum.le (validateSoloDeveloperCapacity ["a"] 10 .intermediate).utilizationPercent
        (.num 80) = true) :=
  capacity_feasible_iff_utilization ["a"] 10 .intermediate

-- ==========================================
-- Claim C4
-- ==========================================

theorem estimate_sum_nonneg (features : List String) :
    0 ≤ (features.map fun f => ((analyzeFeatureComplexity f).estimatedWeeks : ℚ)).sum := by
  apply List.sum_nonneg
  intro x hx
  simp only [List.mem_map] at hx
  obtain ⟨f, _, rfl⟩ := hx
  have h := analyze_weeks_pos f
  have h1 : (1 : ℚ) ≤ ((analyzeFeatureComplexity f).estimatedWeeks : ℚ) := by exact_mod_cast h
  linarith

theorem experienceMultiplier_pos (lvl : ExperienceLevel) : 0 < experienceMultiplier lvl := by
  rcases lvl <;> simp only [experienceMultiplier, divInt_eq_div'] <;> norm_num

/-- Claim C4: at a timeline of 0 weeks, `validateSoloDeveloperCapacity`
still produces a verdict for every feature list and experience level: the
utilization is NaN (empty list) or +∞ (otherwise), both of which fail the
`≤ 80` comparison, so `feasible` is false and the standard "Timeline too
aggressive" recommendation is emitted. -/
theorem capacity_zero_timeline_verdict (features : List String) (lvl : ExperienceLevel) :
    (validateSoloDeveloperCapacity features 0 lvl).feasible = false
    ∧ "⚠️ Timeline too aggressive for feature set"
      ∈ (validateSoloDeveloperCapacity features 0 lvl).recommendations := by
  simp only [validateSoloDeveloperCapacity]
  simp only [capacity_est_eq]
  set est := (features.map fun f => ((analyzeFeatureComplexity f).estimatedWeeks : ℚ)).sum
    * experienceMultiplier lvl * (13 / 10 : ℚ) with hestdef
  have hest : 0 ≤ est := by
    rw [hestdef]
    exact mul_nonneg
      (mul_nonneg (estimate_sum_nonneg features) (experienceMultiplier_pos lvl).le)
      (by norm_num)
  have hle : JSNum.le (JSNum.mul (JSNum.div (.num est) (.num (0 : ℚ))) (.num 100))
      (.num 80) = false := by
    rcases hest.eq_or_gt with h0 | hpos
    · rw [h0]
      simp [JSNum.div, JSNum.mul, JSNum.le]
    · simp [JSNum.div, JSNum.mul, JSNum.le, hpos.ne', hpos,
        show (0 : ℚ) < 100 by norm_num]
  rw [hle]
  exact ⟨rfl, by simp⟩

-- ==========================================
-- Claim C7
-- ==========================================

set_option maxHeartbeats 2000000 in
/-- Claim C7: `detectType` returns the generic fallback exactly when no
question type's keyword-weighted score reaches its threshold of 3; otherwise
it returns the first type in configuration order attaining the highest
eligible score (strict `>` replacement makes earlier types win ties). -/
theorem detect_type_spec (q : String) :
    (detectType q = QuestionType.GENERIC ↔
      (configScore (lowerStr q) problemValidationConfig < 3
        ∧ configScore (lowerStr q) valuePropositionConfig < 3
        ∧ configScore (lowerStr q) mvpScopeConfig < 3
        ∧ configScore (lowerStr q) techStackConfig < 3
        ∧ configScore (lowerStr q) launchPlanConfig < 3))
    ∧ detectType q =
      (if configScore (lowerStr q) problemValidationConfig ≥ 3
          ∧ configScore (lowerStr q) problemValidationConfig
            ≥ configScore (lowerStr q) valuePropositionConfig
          ∧ configScore (lowerStr q) problemValidationConfig
            ≥ configScore (lowerStr q) mvpScopeConfig
          ∧ configScore (lowerStr q) problemValidationConfig
            ≥ configScore (lowerStr q) techStackConfig
          ∧ configScore (lowerStr q) problemValidationConfig
            ≥ configScore (lowerStr q) launchPlanConfig
        then QuestionType.PROBLEM_VALIDATION
       else if configScore (lowerStr q) valuePropositionConfig ≥ 3
          ∧ configScore (lowerStr q) valuePropositionConfig
            ≥ configScore (lowerStr q) mvpScopeConfig
          ∧ configScore (lowerStr q) valuePropositionConfig
            ≥ configScore (lowerStr q) techStackConfig
          ∧ configScore (lowerStr q) valuePropositionConfig
            ≥ configScore (lowerStr q) launchPlanConfig
        then QuestionType.VALUE_PROPOSITION
       else if configScore (lowerStr q) mvpScopeConfig ≥ 3
          ∧ configScore (lowerStr q) mvpScopeConfig
            ≥ configScore (lowerStr q) techStackConfig
          ∧ configScore (lowerStr q) mvpScopeConfig
            ≥ configScore (lowerStr q) launchPlanConfig
        then QuestionType.MVP_SCOPE
       else if configScore (lowerStr q) techStackConfig ≥ 3
          ∧ configScore (lowerStr q) techStackConfig
            ≥ configScore (lowerStr q) launchPlanConfig
        then QuestionType.TECH_STACK
       else if configScore (lowerStr q) launchPlanConfig ≥ 3
        then QuestionType.LAUNCH_PLAN
       else QuestionType.GENERIC) := by
  have hcascade : detectType q =
      (if configScore (lowerStr q) problemValidationConfig ≥ 3
          ∧ configScore (lowerStr q) problemValidationConfig
            ≥ configScore (lowerStr q) valuePropositionConfig
          ∧ configScore (lowerStr q) problemValidationConfig
            ≥ configScore (lowerStr q) mvpScopeConfig
          ∧ configScore (lowerStr q) problemValidationConfig
            ≥ configScore (lowerStr q) techStackConfig
          ∧ configScore (lowerStr q) problemValidationConfig
            ≥ configScore (lowerStr q) launchPlanConfig
        then QuestionType.PROBLEM_VALIDATION
       else if configScore (lowerStr q) valuePropositionConfig ≥ 3
          ∧ configScore (lowerStr q) valuePropositionConfig
            ≥ configScore (lowerStr q) mvpScopeConfig
          ∧ configScore (lowerStr q) valuePropositionConfig
            ≥ configScore (lowerStr q) techStackConfig
          ∧ configScore (lowerStr q) valuePropositionConfig
            ≥ configScore (lowerStr q) launchPlanConfig
        then QuestionType.VALUE_PROPOSITION
       else if configScore (lowerStr q) mvpScopeConfig ≥ 3
          ∧ configScore (lowerStr q) mvpScopeConfig
            ≥ configScore (lowerStr q) techStackConfig
          ∧ configScore (lowerStr q) mvpScopeConfig
            ≥ configScore (lowerStr q) launchPlanConfig
        then QuestionType.MVP_SCOPE
       else if configScore (lowerStr q) techStackConfig ≥ 3
          ∧ configScore (lowerStr q) techStackConfig
            ≥ configScore (lowerStr q) launchPlanConfig
        then QuestionType.TECH_STACK
       else if configScore (lowerStr q) launchPlanConfig ≥ 3
        then QuestionType.LAUNCH_PLAN
       else QuestionType.GENERIC) := by
    unfold detectType
    simp only [QUESTION_CONFIGS, List.foldl_cons, List.foldl_nil]
    rw [show problemValidationConfig.minScore = 3 from rfl,
      show valuePropositionConfig.minScore = 3 from rfl,
      show mvpScopeConfig.minScore = 3 from rfl,
      show techStackConfig.minScore = 3 from rfl,
      show launchPlanConfig.minScore = 3 from rfl,
      show problemValidationConfig.qtype = QuestionType.PROBLEM_VALIDATION from rfl,
      show valuePropositionConfig.qtype = QuestionType.VALUE_PROPOSITION from rfl,
      show mvpScopeConfig.qtype = QuestionType.MVP_SCOPE from rfl,
      show techStackConfig.qtype = QuestionType.TECH_STACK from rfl,
      show launchPlanConfig.qtype = QuestionType.LAUNCH_PLAN from rfl]
    generalize configScore (lowerStr q) problemValidationConfig = s1
    generalize configScore (lowerStr q) valuePropositionConfig = s2
    generalize configScore (lowerStr q) mvpScopeConfig = s3
    generalize configScore (lowerStr q) techStackConfig = s4
    generalize configScore (lowerStr q) launchPlanConfig = s5
    simp only [Bool.and_eq_true, decide_eq_true_eq]
    split_ifs <;> (try dsimp only at *) <;> first | rfl | (exfalso; omega)
  refine ⟨?_, hcascade⟩
  rw [hcascade]
  generalize configScore (lowerStr q) problemValidationConfig = s1
  generalize configScore (lowerStr q) valuePropositionConfig = s2
  generalize configScore (lowerStr q) mvpScopeConfig = s3
  generalize configScore (lowerStr q) techStackConfig = s4
  generalize configScore (lowerStr q) launchPlanConfig = s5
  split_ifs <;> simp_all
  all_goals omega

-- ==========================================
-- Claim C2
-- ==========================================

/-- Claim C2 (amended): `validateProject` reports that the session should
proceed exactly when the comprehensive scope validation has at most one
critical warning, its timeline-sanity risk level is not extreme, and the MVP
readiness score is at least 60.  The readiness blockers and the
`validateScopeProtection` verdict are not consulted (see the
counterexample). -/
theorem validate_project_should_proceed_iff (data : PRDData) :
    (validateProject data).shouldProceed = true ↔
      (criticalCount (performComprehensiveScopeValidation
          (validateProjectScopeInput data)).warnings ≤ 1
        ∧ (checkTimelineSanity data.coreFeatures (data.totalWeeks : ℚ)).riskLevel
          ≠ Level.extreme
        ∧ 60 ≤ (calculateMVPReadiness 7 ((data.coreFeatures.drop 3).take 5)
            (transformToPRDZeroData data).knownFrameworks data.totalWeeks).score) := by
  have h1 : (validateProject data).shouldProceed
      = ((performComprehensiveScopeValidation (validateProjectScopeInput data)).shouldProceed
        && decide ((calculateMVPReadiness 7 ((data.coreFeatures.drop 3).take 5)
          (transformToPRDZeroData data).knownFrameworks data.totalWeeks).score ≥ 60)) := rfl
  have h2 : (performComprehensiveScopeValidation (validateProjectScopeInput data)).shouldProceed
      = (decide (criticalCount (performComprehensiveScopeValidation
          (validateProjectScopeInput data)).warnings ≤ 1)
        && decide ((checkTimelineSanity data.coreFeatures (data.totalWeeks : ℚ)).riskLevel
          ≠ Level.extreme)) := rfl
  rw [h1, h2]
  simp [Bool.and_eq_true, decide_eq_true_eq, and_assoc, ge_iff_le]

/-- Claim C2 counterexample: for the concrete seven-feature session
`c2Session`, the report says the session should proceed (critical count 0,
medium timeline risk, readiness score exactly 60) even though the readiness
result carries the blocker "Scope too large for MVP" and
`validateScopeProtection` rejects the scope — so "should proceed" is not
equivalent to "no blockers and readiness ≥ 60 and scope-protection valid". -/
theorem validate_project_three_gate_counterexample :
    (validateProject c2Session).shouldProceed = true
    ∧ (validateProject c2Session).blockers = ["Scope too large for MVP"]
    ∧ 60 ≤ (validateProject c2Session).mvpReadinessScore
    ∧ (validateScopeProtection c2Session.coreFeatures (c2Session.totalWeeks : ℚ)).valid
      = false := by
  decide
